import Mathlib

/-!
Verification of the email-sender HTTP service (Express/Node implementation).

The server code lives in one file; this development shallowly embeds the
parts with decision logic: the login handler, the JWT middleware gate, the
send-email payload validation chain, and the transport-error mapping of the
send handler. JavaScript request-body values are modelled by `JsVal` (with
JS truthiness and string coercion), since validation behaviour depends on
them.  The external token codec (the jsonwebtoken library) is out of scope
of the source and is modelled from the spec.
-/

namespace EmailSender

/-- A JavaScript value as it can appear in a parsed JSON request body,
plus `undefined` for absent fields.  Numbers are modelled as integers
(the claims only need integer inputs). -/
inductive JsVal where
  | undef
  | null
  | bool (b : Bool)
  | num (n : Int)
  | str (s : String)
  | arr (elems : List JsVal)
deriving Repr

/-- JavaScript truthiness of a value (`!v` in the source is `!(truthy v)`).
`undefined`, `null`, `false`, `0` and `""` are falsy; arrays are always
truthy. -/
def truthy : JsVal → Bool
  | .undef => false
  | .null => false
  | .bool b => b
  | .num n => n != 0
  | .str s => s != ""
  | .arr _ => true

/-- `Array.isArray(v)`. -/
def isArr : JsVal → Bool
  | .arr _ => true
  | _ => false

/-- The element list of an array value (used after an `Array.isArray`
check has succeeded; `[]` otherwise). -/
def arrElems : JsVal → List JsVal
  | .arr xs => xs
  | _ => []

mutual

/-- JavaScript `String(v)` coercion: arrays stringify as their elements
joined by `","` (with `null`/`undefined` elements contributing the empty
string, as `Array.prototype.join` does). -/
def jsToString : JsVal → String
  | .undef => "undefined"
  | .null => "null"
  | .bool true => "true"
  | .bool false => "false"
  | .num n => toString n
  | .str s => s
  | .arr xs => String.intercalate "," (jsJoinList xs)

/-- Element-wise stringification used by `Array.prototype.join`. -/
def jsJoinList : List JsVal → List String
  | [] => []
  | .undef :: vs => "" :: jsJoinList vs
  | .null :: vs => "" :: jsJoinList vs
  | v :: vs => jsToString v :: jsJoinList vs

end

/-- A character admitted by the regex class `[^\s@]`: not whitespace and
not `@`.  JS `\s` is approximated by `Char.isWhitespace` (space, tab, CR,
LF): the two diverge on vertical tab, form feed, NBSP and the other
Unicode spaces, which JS `\s` also contains, so this model accepts some
addresses containing those characters that the source regex rejects.
None of the verified claims characterises the predicate's extension, and
every concrete input used below stays where the two agree. -/
def isAddrChar (c : Char) : Bool := !c.isWhitespace && c != '@'

/-- Whether the domain part (the characters after the `@`) contains a
dot that has at least one character before it and one after it, i.e. the
regex tail `[^\s@]+\.[^\s@]+` can split it (given all its characters
already lie in `[^\s@]`). -/
def domainHasInteriorDot (domain : List Char) : Bool :=
  ((domain.drop 1).dropLast).contains '.'

/-- The email regex `/^[^\s@]+@[^\s@]+\.[^\s@]+$/` from the source, as a
function on character lists.  Since `[^\s@]` excludes `@`, a matching
string contains exactly one `@`; the part before it is the nonempty local
part, the part after it must be nonempty `[^\s@]` characters containing a
dot with nonempty material on both sides. -/
def emailRegexMatch (cs : List Char) : Bool :=
  let localPart := cs.takeWhile (fun c => c != '@')
  match cs.dropWhile (fun c => c != '@') with
  | '@' :: domain =>
      !localPart.isEmpty && localPart.all isAddrChar &&
      !domain.isEmpty && domain.all isAddrChar &&
      domainHasInteriorDot domain
  | _ => false

/-- `isValidEmail` from the source: `emailRegex.test(email)`. -/
def isValidEmail (s : String) : Bool :=
  emailRegexMatch s.data

/-- `regex.test` coerces its argument to a string, so applying
`isValidEmail` to an arbitrary request-body value goes through
`jsToString`. -/
def isValidEmailJs (v : JsVal) : Bool :=
  isValidEmail (jsToString v)

/-! ## Token codec and the middleware gate -/

/-- Milliseconds in an hour. -/
def hourMs : Nat := 3600000

/-- The decoded claim set of a verified token (the source attaches it to
`req.user`; downstream only `username` is read). -/
structure Claims where
  username : String
deriving Repr, DecidableEq

/-- Modelled from the spec: the token produced by the external token codec
(the jsonwebtoken library, out of scope of the source).  Per the spec it
is a signed claim set `{username, issuedAt}` with a 24-hour validity
window; we record the signing secret and the expiry instant (in
milliseconds) explicitly. -/
structure AuthToken where
  username : String
  issuedAt : Nat
  exp : Nat
  secret : String
deriving Repr, DecidableEq

/-- Modelled from the spec: `jwt.sign({username, iat}, secret,
{expiresIn: 24h})` — a claim set signed with `secret`, issued at `now`
and expiring 24 hours later. -/
def signToken (username secret : String) (now : Nat) : AuthToken :=
  { username := username, issuedAt := now, exp := now + 24 * hourMs, secret := secret }

/-- Modelled from the spec: `jwt.verify(token, secret)` at instant `now` —
succeeds with the decoded claims exactly when the token was signed with
the same secret and its expiry has not yet elapsed. -/
def verifyTokenSig (t : AuthToken) (secret : String) (now : Nat) : Option Claims :=
  if t.secret == secret && now < t.exp then some { username := t.username } else none

/-- JavaScript `String.prototype.split` with a single-character separator,
on character lists: `"a  b".split(' ')` gives `["a", "", "b"]`, and the
empty string splits to `[""]`. -/
def splitOnChar (sep : Char) : List Char → List (List Char)
  | [] => [[]]
  | c :: rest =>
    if c = sep then [] :: splitOnChar sep rest
    else
      match splitOnChar sep rest with
      | [] => [[c]]
      | h :: t => (c :: h) :: t

/-- The token extraction of the middleware:
`authHeader && authHeader.split(' ')[1]` followed by the `!token` test.
Returns the token segment when the header is truthy, has a second
space-separated segment, and that segment is nonempty. -/
def extractToken (authHeader : Option String) : Option String :=
  match authHeader with
  | none => none
  | some h =>
    if h = "" then none
    else
      match (splitOnChar ' ' h.data).get? 1 with
      | none => none
      | some t => if t = [] then none else some (String.mk t)

/-- Outcome of the `verifyToken` middleware: either a JSON error response
(status, message) or the decoded claims attached to the request. -/
inductive AuthResult where
  | denied (status : Nat) (message : String)
  | granted (claims : Claims)
deriving Repr, DecidableEq

/-- The `verifyToken` middleware from the source.  `verify` abstracts
`jwt.verify(token, JWT_SECRET)` on the serialized token string (`none`
models the throwing branch). -/
def verifyTokenGate (authHeader : Option String) (verify : String → Option Claims) :
    AuthResult :=
  match extractToken authHeader with
  | none => .denied 401 "Access denied. No token provided."
  | some t =>
    match verify t with
    | none => .denied 403 "Invalid token."
    | some c => .granted c

/-! ## Login -/

/-- The static credential table from the login handler. -/
def validCredentials : List (String × String) :=
  [("admin", "admin123"), ("user", "user123"), ("emailsender", "email123")]

/-- Result of the login handler: HTTP status, the `success` flag, the
`message` field, and the issued token when present. -/
structure LoginResult where
  status : Nat
  success : Bool
  message : String
  token : Option AuthToken
deriving Repr, DecidableEq

/-- The `/api/login` handler: exact-match lookup in the static credential
table; on a match, a token for the matched username signed with the
process secret at the current time; otherwise a 401 with a single
message. -/
def login (secret username password : String) (now : Nat) : LoginResult :=
  match validCredentials.find? (fun cred => cred.1 == username && cred.2 == password) with
  | none => { status := 401, success := false, message := "Invalid username or password", token := none }
  | some u => { status := 200, success := true, message := "Login successful", token := some (signToken u.1 secret now) }

/-! ## Send-email payload validation -/

/-- The destructured request body of `/api/send-email`; each field is a
raw JavaScript value (`undef` when absent). -/
structure SendEmailBody where
  senderEmail : JsVal
  senderName : JsVal
  appPassword : JsVal
  recipients : JsVal
  subject : JsVal
  template : JsVal
deriving Repr

/-- The first validation condition: all six fields truthy
(the source tests `!senderEmail || !senderName || ...`). -/
def allFieldsPresent (b : SendEmailBody) : Bool :=
  truthy b.senderEmail && truthy b.senderName && truthy b.appPassword &&
  truthy b.recipients && truthy b.subject && truthy b.template

/-- The third validation condition, negated from the source's
`!Array.isArray(recipients) || recipients.length === 0`. -/
def recipientsIsNonEmptyArray (b : SendEmailBody) : Bool :=
  isArr b.recipients && (arrElems b.recipients).length != 0

/-- `recipients.filter(email => !isValidEmail(email))` — the invalid
recipients, in their original order. -/
def invalidRecipientEmails (b : SendEmailBody) : List JsVal :=
  (arrElems b.recipients).filter (fun e => !isValidEmailJs e)

/-- The five 400-errors of the validation chain, one constructor per
`return res.status(400)` site. -/
inductive ValidationError where
  | missingFields
  | invalidSenderFormat
  | invalidRecipients
  | tooManyRecipients
  | invalidRecipientFormat (invalidEmails : List JsVal)
deriving Repr

/-- The `message` field of each 400 response.  The invalid-recipient
message interpolates `invalidEmails.join(', ')`, so its elements are
rendered by `Array.prototype.join` (`jsJoinList`): `null` and
`undefined` elements contribute the empty string, unlike the `String(v)`
coercion used by `regex.test`. -/
def ValidationError.message : ValidationError → String
  | .missingFields => "All fields are required: senderEmail, senderName, appPassword, recipients, subject, template"
  | .invalidSenderFormat => "Invalid sender email format"
  | .invalidRecipients => "Recipients must be a non-empty array"
  | .tooManyRecipients => "Maximum 25 recipients allowed"
  | .invalidRecipientFormat invalidEmails =>
      "Invalid email format for: " ++ String.intercalate ", " (jsJoinList invalidEmails)

/-- The validation chain of the send-email handler, in source order: the
first failing check produces the error, later checks are not reached. -/
def validateSendEmail (b : SendEmailBody) : Option ValidationError :=
  if !allFieldsPresent b then some .missingFields
  else if !isValidEmailJs b.senderEmail then some .invalidSenderFormat
  else if !recipientsIsNonEmptyArray b then some .invalidRecipients
  else if 25 < (arrElems b.recipients).length then some .tooManyRecipients
  else
    let invalidEmails := invalidRecipientEmails b
    if 0 < invalidEmails.length then some (.invalidRecipientFormat invalidEmails)
    else none

/-! ## Transport and the send-email handler -/

/-- A nodemailer error as observed by the catch block: its `code`
property (possibly absent) and its `message`. -/
structure TransportErr where
  code : Option String
  message : String
deriving Repr, DecidableEq

/-- Behaviour of the external mail transport for one request: the result
of `transporter.verify()` and of `transporter.sendMail(...)` (`Sum.inl`
an error that is thrown, `Sum.inr` the message id on success). -/
structure Transport where
  verifyOutcome : Option TransportErr
  sendOutcome : TransportErr ⊕ String
deriving Repr, DecidableEq

/-- The observable side effects of the handler on the transport. -/
inductive TransportAction where
  | createTransporter
  | verifyConnection
  | sendMail
deriving Repr, DecidableEq

/-- The `data` object of a successful send response (the fields the
claims mention). -/
structure SendEmailData where
  messageId : String
  recipientCount : Nat
  sentBy : String
deriving Repr, DecidableEq

/-- A JSON response of the send-email handler: HTTP status, `success`,
`message`, the optional `error` field, and the optional `data`. -/
structure HttpResponse where
  status : Nat
  success : Bool
  message : String
  error : Option String
  data : Option SendEmailData
deriving Repr, DecidableEq

/-- The catch block of the send-email handler: `EAUTH` errors become 401,
`ECONNECTION` errors become 503, anything else becomes a 500 carrying the
raw error message. -/
def handleTransportError (e : TransportErr) : HttpResponse :=
  if e.code == some "EAUTH" then
    { status := 401, success := false
      message := "Authentication failed. Please check your email and app password."
      error := none, data := none }
  else if e.code == some "ECONNECTION" then
    { status := 503, success := false
      message := "Connection failed. Please check your internet connection."
      error := none, data := none }
  else
    { status := 500, success := false, message := "Failed to send email"
      error := some e.message, data := none }

/-- The body of the `/api/send-email` handler after the middleware has
granted access to `user`: validation first (a failure responds 400 and
touches no transport), then `createTransporter`, `transporter.verify()`
and `transporter.sendMail(...)`, with thrown transport errors mapped by
the catch block.  Returns the response together with the list of
transport actions performed. -/
def sendEmailHandler (b : SendEmailBody) (user : String) (t : Transport) :
    HttpResponse × List TransportAction :=
  match validateSendEmail b with
  | some e =>
    ({ status := 400, success := false, message := e.message, error := none, data := none }, [])
  | none =>
    match t.verifyOutcome with
    | some e =>
      (handleTransportError e, [.createTransporter, .verifyConnection])
    | none =>
      match t.sendOutcome with
      | .inl e =>
        (handleTransportError e, [.createTransporter, .verifyConnection, .sendMail])
      | .inr messageId =>
        ({ status := 200, success := true, message := "Email sent successfully"
           error := none
           data := some { messageId := messageId
                          recipientCount := (arrElems b.recipients).length
                          sentBy := user } },
         [.createTransporter, .verifyConnection, .sendMail])

/-! ## Helper lemmas -/

/-- Splitting a list that does not contain the separator yields the list
itself as the single segment. -/
theorem splitOnChar_of_not_mem (sep : Char) (cs : List Char) (h : sep ∉ cs) :
    splitOnChar sep cs = [cs] := by
  induction cs with
  | nil => rfl
  | cons c rest ih =>
    have hc : c ≠ sep := fun hc => h (hc ▸ List.mem_cons_self c rest)
    have hrest : sep ∉ rest := fun hr => h (List.mem_cons_of_mem c hr)
    rw [splitOnChar, if_neg hc, ih hrest]

/-- Splitting `a ++ sep :: b` where `a` is separator-free yields `a`
followed by the segments of `b`. -/
theorem splitOnChar_append_sep (sep : Char) (a b : List Char) (ha : sep ∉ a) :
    splitOnChar sep (a ++ sep :: b) = a :: splitOnChar sep b := by
  induction a with
  | nil => rw [List.nil_append, splitOnChar, if_pos rfl]
  | cons c a' ih =>
    have hc : c ≠ sep := fun hc => ha (hc ▸ List.mem_cons_self c a')
    have ha' : sep ∉ a' := fun hr => ha (List.mem_cons_of_mem c hr)
    rw [List.cons_append, splitOnChar, if_neg hc, ih ha']

/-- A string with empty character data is the empty string. -/
theorem string_eq_empty_of_data_eq_nil (t : String) (h : t.data = []) : t = "" :=
  String.ext h

/-! ## Claims -/

/-- C1: login succeeds (HTTP 200 with a token) exactly when the
username/password pair is one of the three static credentials, under
case-sensitive string equality; every other pair gets the single 401
response "Invalid username or password", which does not depend on which
field was wrong. -/
theorem login_exactly_static_credentials (secret u p : String) (now : Nat) :
    ((u, p) ∈ validCredentials →
      (login secret u p now).status = 200 ∧ (login secret u p now).token.isSome = true) ∧
    ((u, p) ∉ validCredentials →
      login secret u p now =
        { status := 401, success := false, message := "Invalid username or password",
          token := none }) ∧
    validCredentials =
      [("admin", "admin123"), ("user", "user123"), ("emailsender", "email123")] := by
  refine ⟨?_, ?_, rfl⟩
  · intro hmem
    have hsome : (validCredentials.find? fun cred => cred.1 == u && cred.2 == p).isSome := by
      rw [List.find?_isSome]
      exact ⟨(u, p), hmem, by simp⟩
    rcases hfind : validCredentials.find? fun cred => cred.1 == u && cred.2 == p with _ | cred
    · rw [hfind] at hsome; simp at hsome
    · simp [login, hfind]
  · intro hmem
    have hnone : (validCredentials.find? fun cred => cred.1 == u && cred.2 == p) = none := by
      rw [List.find?_eq_none]
      intro x hx hpx
      simp only [Bool.and_eq_true, beq_iff_eq] at hpx
      exact hmem (by rw [show (u, p) = x from Prod.ext hpx.1.symm hpx.2.symm]; exact hx)
    simp [login, hnone]

/-- C1 witness: the pair admin/admin123 is in the static table and logs
in with a token; the pair admin/wrong is not and gets the 401. -/
theorem login_exactly_static_credentials_witness :
    ((login "sec" "admin" "admin123" 0).status = 200 ∧
      (login "sec" "admin" "admin123" 0).token.isSome = true) ∧
    login "sec" "admin" "wrong" 0 =
      { status := 401, success := false, message := "Invalid username or password",
        token := none } :=
  ⟨(login_exactly_static_credentials "sec" "admin" "admin123" 0).1 (by decide),
   (login_exactly_static_credentials "sec" "admin" "wrong" 0).2.1 (by decide)⟩

/-- C3: a token issued by login verifies successfully at the instant of
issuance, and fails verification at every instant 24 hours or more after
issuance. -/
theorem login_token_24h_expiry (secret u p : String) (t0 t1 : Nat) (tok : AuthToken)
    (hiss : (login secret u p t0).token = some tok) :
    (verifyTokenSig tok secret t0).isSome = true ∧
    (t0 + 24 * hourMs ≤ t1 → verifyTokenSig tok secret t1 = none) := by
  rcases hfind : validCredentials.find? fun cred => cred.1 == u && cred.2 == p with _ | cred
  · simp [login, hfind] at hiss
  · simp only [login, hfind, Option.some_inj] at hiss
    subst hiss
    constructor
    · simp [verifyTokenSig, signToken, hourMs]
    · intro hlate
      have hnot : ¬(t1 < t0 + 24 * hourMs) := by omega
      simp [verifyTokenSig, signToken, hnot]

/-- C3 witness: the token issued to admin at time 0 verifies at time 0
and no longer verifies exactly 24 hours later. -/
theorem login_token_24h_expiry_witness :
    (verifyTokenSig (signToken "admin" "sec" 0) "sec" 0).isSome = true ∧
    (0 + 24 * hourMs ≤ 24 * hourMs →
      verifyTokenSig (signToken "admin" "sec" 0) "sec" (24 * hourMs) = none) :=
  login_token_24h_expiry "sec" "admin" "admin123" 0 (24 * hourMs)
    (signToken "admin" "sec" 0) rfl

/-- C4: the middleware gate is a two-way split: no extractable token
segment (in particular, no header at all) gives the 401 response
"Access denied. No token provided."; a token segment that fails
verification gives the 403 response "Invalid token."; a verified token
attaches the decoded claims to the request. -/
theorem gate_splits_missing_vs_invalid (h : Option String)
    (verify : String → Option Claims) :
    (h = none →
      verifyTokenGate h verify = .denied 401 "Access denied. No token provided.") ∧
    (extractToken h = none →
      verifyTokenGate h verify = .denied 401 "Access denied. No token provided.") ∧
    (∀ t, extractToken h = some t → verify t = none →
      verifyTokenGate h verify = .denied 403 "Invalid token.") ∧
    (∀ t c, extractToken h = some t → verify t = some c →
      verifyTokenGate h verify = .granted c) := by
  refine ⟨?_, ?_, ?_, ?_⟩
  · intro hn; subst hn; rfl
  · intro he; simp [verifyTokenGate, he]
  · intro t he hv; simp [verifyTokenGate, he, hv]
  · intro t c he hv; simp [verifyTokenGate, he, hv]

/-- C4 witness: a missing header is denied with 401, a present but
unverifiable token is denied with 403, and a verifiable token is granted
with its claims. -/
theorem gate_splits_missing_vs_invalid_witness :
    verifyTokenGate none (fun _ => none) = .denied 401 "Access denied. No token provided." ∧
    verifyTokenGate (some "Bearer abc") (fun _ => none) = .denied 403 "Invalid token." ∧
    verifyTokenGate (some "Bearer abc") (fun _ => some { username := "admin" }) =
      .granted { username := "admin" } :=
  ⟨(gate_splits_missing_vs_invalid none (fun _ => none)).1 rfl,
   (gate_splits_missing_vs_invalid (some "Bearer abc") (fun _ => none)).2.2.1 "abc"
     (by decide) rfl,
   (gate_splits_missing_vs_invalid (some "Bearer abc")
       (fun _ => some { username := "admin" })).2.2.2 "abc" { username := "admin" }
     (by decide) rfl⟩

/-- C9: the gate never inspects the scheme word of the Authorization
header: for any space-free words `w` and `t`, the header `w ++ " " ++ t`
yields the token segment `t` (so it is granted whenever `t` verifies,
whatever `w` is), while a header that is a single space-free segment has
no token segment and is denied with the no-token 401. -/
theorem gate_ignores_scheme_word (w t s : String) (verify : String → Option Claims)
    (c : Claims) (hw : ' ' ∉ w.data) (ht : ' ' ∉ t.data) (ht0 : t ≠ "")
    (hs : ' ' ∉ s.data) :
    extractToken (some (w ++ " " ++ t)) = some t ∧
    (verify t = some c → verifyTokenGate (some (w ++ " " ++ t)) verify = .granted c) ∧
    verifyTokenGate (some s) verify = .denied 401 "Access denied. No token provided." := by
  have hdata : (w ++ " " ++ t).data = w.data ++ ' ' :: t.data := by
    simp [String.data_append]
  have hne : (w ++ " " ++ t) ≠ "" := by
    intro h0
    have h1 := congrArg String.data h0
    rw [hdata] at h1
    simp at h1
  have htd : t.data ≠ [] := by
    intro h0
    exact ht0 (string_eq_empty_of_data_eq_nil t h0)
  have hex : extractToken (some (w ++ " " ++ t)) = some t := by
    rw [extractToken, if_neg hne, hdata, splitOnChar_append_sep ' ' w.data t.data hw,
      splitOnChar_of_not_mem ' ' t.data ht]
    simp [htd]
  refine ⟨hex, fun hv => by simp [verifyTokenGate, hex, hv], ?_⟩
  by_cases hse : s = ""
  · subst hse; rfl
  · have : extractToken (some s) = none := by
      rw [extractToken, if_neg hse, splitOnChar_of_not_mem ' ' s.data hs]
      rfl
    simp [verifyTokenGate, this]

/-- C9 witness: the header scheme word Basic is accepted in place of
Bearer, and a bare valid token with no space is denied as a missing
token. -/
theorem gate_ignores_scheme_word_witness :
    extractToken (some ("Basic" ++ " " ++ "abc")) = some "abc" ∧
    verifyTokenGate (some ("Basic" ++ " " ++ "abc"))
      (fun _ => some { username := "admin" }) = .granted { username := "admin" } ∧
    verifyTokenGate (some "abc") (fun _ => some { username := "admin" }) =
      .denied 401 "Access denied. No token provided." :=
  have h := gate_ignores_scheme_word "Basic" "abc" "abc"
    (fun _ => some { username := "admin" }) { username := "admin" }
    (by decide) (by decide) (by decide) (by decide)
  ⟨h.1, h.2.1 rfl, h.2.2⟩

/-- C2: the validation chain is order-sensitive: the five checks run in
the fixed source order, the first failing check alone determines the
single reported error, and a payload that fails a check produces exactly
that 400 response from the handler.  In particular every payload with a
falsy `subject` yields the missing-fields error regardless of the other
fields. -/
theorem validation_order_sensitive (b : SendEmailBody) :
    (truthy b.subject = false → validateSendEmail b = some .missingFields) ∧
    (allFieldsPresent b = false → validateSendEmail b = some .missingFields) ∧
    (allFieldsPresent b = true → isValidEmailJs b.senderEmail = false →
      validateSendEmail b = some .invalidSenderFormat) ∧
    (allFieldsPresent b = true → isValidEmailJs b.senderEmail = true →
      recipientsIsNonEmptyArray b = false →
      validateSendEmail b = some .invalidRecipients) ∧
    (allFieldsPresent b = true → isValidEmailJs b.senderEmail = true →
      recipientsIsNonEmptyArray b = true → 25 < (arrElems b.recipients).length →
      validateSendEmail b = some .tooManyRecipients) ∧
    (allFieldsPresent b = true → isValidEmailJs b.senderEmail = true →
      recipientsIsNonEmptyArray b = true → (arrElems b.recipients).length ≤ 25 →
      invalidRecipientEmails b ≠ [] →
      validateSendEmail b = some (.invalidRecipientFormat (invalidRecipientEmails b))) ∧
    (allFieldsPresent b = true → isValidEmailJs b.senderEmail = true →
      recipientsIsNonEmptyArray b = true → (arrElems b.recipients).length ≤ 25 →
      invalidRecipientEmails b = [] → validateSendEmail b = none) ∧
    (∀ e : ValidationError, validateSendEmail b = some e → ∀ user t,
      (sendEmailHandler b user t).1 =
        { status := 400, success := false, message := e.message, error := none,
          data := none }) := by
  refine ⟨?_, ?_, ?_, ?_, ?_, ?_, ?_, ?_⟩
  · intro h1
    have : allFieldsPresent b = false := by simp [allFieldsPresent, h1]
    simp [validateSendEmail, this]
  · intro h1; simp [validateSendEmail, h1]
  · intro h1 h2; simp [validateSendEmail, h1, h2]
  · intro h1 h2 h3; simp [validateSendEmail, h1, h2, h3]
  · intro h1 h2 h3 h4; simp [validateSendEmail, h1, h2, h3, h4]
  · intro h1 h2 h3 h4 h5
    have h4n : ¬(25 < (arrElems b.recipients).length) := by omega
    have h5p : 0 < (invalidRecipientEmails b).length := List.length_pos.mpr h5
    simp [validateSendEmail, h1, h2, h3, h4n, h5p]
  · intro h1 h2 h3 h4 h5
    have h4n : ¬(25 < (arrElems b.recipients).length) := by omega
    simp [validateSendEmail, h1, h2, h3, h4n, h5]
  · intro e he user t; simp [sendEmailHandler, he]

/-- C2 witness: a payload whose subject is absent and whose sender email
is also malformed is reported as missing fields, and the handler turns
that into the 400 response. -/
theorem validation_order_sensitive_witness :
    validateSendEmail
      { senderEmail := .str "not-an-email", senderName := .str "X",
        appPassword := .str "pw", recipients := .arr [.str "r@b.cd"],
        subject := .undef, template := .str "<p>hello</p>" } =
      some .missingFields :=
  (validation_order_sensitive
    { senderEmail := .str "not-an-email", senderName := .str "X",
      appPassword := .str "pw", recipients := .arr [.str "r@b.cd"],
      subject := .undef, template := .str "<p>hello</p>" }).1 rfl

/-- C5: transport failures map to exactly three outcomes: an EAUTH error
becomes the 401 authentication-failed response, an ECONNECTION error
becomes the 503 connection-failed response, and every other error becomes
a 500 carrying the raw error message; and the send handler responds with
exactly this mapping whenever the verify step or the send step throws. -/
theorem transport_error_taxonomy (e : TransportErr) :
    (e.code = some "EAUTH" → handleTransportError e =
      { status := 401, success := false,
        message := "Authentication failed. Please check your email and app password.",
        error := none, data := none }) ∧
    (e.code = some "ECONNECTION" → handleTransportError e =
      { status := 503, success := false,
        message := "Connection failed. Please check your internet connection.",
        error := none, data := none }) ∧
    (e.code ≠ some "EAUTH" → e.code ≠ some "ECONNECTION" → handleTransportError e =
      { status := 500, success := false, message := "Failed to send email",
        error := some e.message, data := none }) ∧
    (∀ b user t, validateSendEmail b = none → t.verifyOutcome = some e →
      (sendEmailHandler b user t).1 = handleTransportError e) ∧
    (∀ b user t, validateSendEmail b = none → t.verifyOutcome = none →
      t.sendOutcome = Sum.inl e →
      (sendEmailHandler b user t).1 = handleTransportError e) := by
  refine ⟨?_, ?_, ?_, ?_, ?_⟩
  · intro h; simp [handleTransportError, h]
  · intro h; simp [handleTransportError, h]
  · intro h1 h2; simp [handleTransportError, beq_iff_eq, h1, h2]
  · intro b user t hv ht; simp [sendEmailHandler, hv, ht]
  · intro b user t hv hok hs; simp [sendEmailHandler, hv, hok, hs]

/-- C5 witness: the three concrete error codes produce the three concrete
responses. -/
theorem transport_error_taxonomy_witness :
    handleTransportError { code := some "EAUTH", message := "m1" } =
      { status := 401, success := false,
        message := "Authentication failed. Please check your email and app password.",
        error := none, data := none } ∧
    handleTransportError { code := some "ECONNECTION", message := "m2" } =
      { status := 503, success := false,
        message := "Connection failed. Please check your internet connection.",
        error := none, data := none } ∧
    handleTransportError { code := some "ETIMEDOUT", message := "socket timed out" } =
      { status := 500, success := false, message := "Failed to send email",
        error := some "socket timed out", data := none } :=
  ⟨(transport_error_taxonomy { code := some "EAUTH", message := "m1" }).1 rfl,
   (transport_error_taxonomy { code := some "ECONNECTION", message := "m2" }).2.1 rfl,
   (transport_error_taxonomy { code := some "ETIMEDOUT", message := "socket timed out" }).2.2.1
     (by simp) (by simp)⟩

/-- C6: once the earlier checks pass, the per-recipient check fails with
a single error listing exactly the invalid recipients — an
order-preserving sublist of the original recipients list — joined by
a comma and space (each element rendered as `Array.prototype.join`
renders it, so `null`/`undefined` elements appear as the empty string),
and succeeds when every recipient passes. -/
theorem invalid_recipients_all_listed (b : SendEmailBody)
    (h1 : allFieldsPresent b = true) (h2 : isValidEmailJs b.senderEmail = true)
    (h3 : recipientsIsNonEmptyArray b = true)
    (h4 : (arrElems b.recipients).length ≤ 25) :
    (invalidRecipientEmails b ≠ [] →
      validateSendEmail b = some (.invalidRecipientFormat (invalidRecipientEmails b)) ∧
      (ValidationError.invalidRecipientFormat (invalidRecipientEmails b)).message =
        "Invalid email format for: " ++
          String.intercalate ", " (jsJoinList (invalidRecipientEmails b))) ∧
    (invalidRecipientEmails b = [] → validateSendEmail b = none) ∧
    List.Sublist (invalidRecipientEmails b) (arrElems b.recipients) ∧
    (∀ e, e ∈ invalidRecipientEmails b ↔
      e ∈ arrElems b.recipients ∧ isValidEmailJs e = false) := by
  have h4n : ¬(25 < (arrElems b.recipients).length) := by omega
  refine ⟨?_, ?_, List.filter_sublist _, ?_⟩
  · intro h5
    have h5p : 0 < (invalidRecipientEmails b).length := List.length_pos.mpr h5
    exact ⟨by simp [validateSendEmail, h1, h2, h3, h4n, h5p], rfl⟩
  · intro h5; simp [validateSendEmail, h1, h2, h3, h4n, h5]
  · intro e
    simp [invalidRecipientEmails, List.mem_filter]

/-- C6 witness: the recipients null and bad both fail the format check,
and the single message joins them as `Array.prototype.join` does — the
null renders as the empty string, giving "Invalid email format for: ,
bad". -/
theorem invalid_recipients_all_listed_witness :
    validateSendEmail
      { senderEmail := .str "a@b.cd", senderName := .str "X", appPassword := .str "pw",
        recipients := .arr [.null, .str "bad"], subject := .str "s",
        template := .str "<p>hello</p>" } =
      some (.invalidRecipientFormat [.null, .str "bad"]) ∧
    (ValidationError.invalidRecipientFormat [JsVal.null, JsVal.str "bad"]).message =
      "Invalid email format for: , bad" :=
  have h := (invalid_recipients_all_listed
    { senderEmail := .str "a@b.cd", senderName := .str "X", appPassword := .str "pw",
      recipients := .arr [.null, .str "bad"], subject := .str "s",
      template := .str "<p>hello</p>" } rfl rfl rfl (by simp [arrElems])).1
    (List.length_pos.mp (by decide))
  ⟨h.1, by decide⟩

/-- C7: with the earlier checks passing, validation reports the
too-many-recipients error exactly when the recipients list is longer
than 25. -/
theorem recipient_cap_is_25 (b : SendEmailBody)
    (h1 : allFieldsPresent b = true) (h2 : isValidEmailJs b.senderEmail = true)
    (h3 : recipientsIsNonEmptyArray b = true) :
    validateSendEmail b = some .tooManyRecipients ↔
      25 < (arrElems b.recipients).length := by
  by_cases h4 : 25 < (arrElems b.recipients).length
  · simp [validateSendEmail, h1, h2, h3, h4]
  · simp only [validateSendEmail, h1, h2, h3]
    simp only [Bool.not_true, Bool.false_eq_true, if_false, if_neg h4]
    constructor
    · intro h
      by_cases h5 : 0 < (invalidRecipientEmails b).length <;> simp [h5] at h
    · intro h; exact absurd h h4

/-- C7 witness: 26 valid recipients are rejected with the
too-many-recipients error (and, via the reverse direction, 25 are
not). -/
theorem recipient_cap_is_25_witness :
    validateSendEmail
      { senderEmail := .str "a@b.cd", senderName := .str "X", appPassword := .str "pw",
        recipients := .arr (List.replicate 26 (.str "r@b.cd")), subject := .str "s",
        template := .str "<p>hello</p>" } =
      some .tooManyRecipients :=
  (recipient_cap_is_25
    { senderEmail := .str "a@b.cd", senderName := .str "X", appPassword := .str "pw",
      recipients := .arr (List.replicate 26 (.str "r@b.cd")), subject := .str "s",
      template := .str "<p>hello</p>" } rfl rfl rfl).mpr (by simp [arrElems])

/-- C8 counterexample: a payload whose earlier checks pass and whose
recipients value is a non-empty array containing a non-string element (a
nested array) is not rejected at all — validation returns no error, so in
particular it is not rejected with the non-empty-array error, contrary to
the claim that any recipients value that is not a non-empty sequence of
strings fails this check. -/
theorem nonstring_recipient_not_rejected :
    validateSendEmail
      { senderEmail := .str "a@b.cd", senderName := .str "X", appPassword := .str "pw",
        recipients := .arr [.arr [.str "a@b.cd"]], subject := .str "s",
        template := .str "<p>hello</p>" } = none ∧
    validateSendEmail
      { senderEmail := .str "a@b.cd", senderName := .str "X", appPassword := .str "pw",
        recipients := .arr [.arr [.str "a@b.cd"]], subject := .str "s",
        template := .str "<p>hello</p>" } ≠ some .invalidRecipients := by
  refine ⟨rfl, ?_⟩
  intro h
  rw [show validateSendEmail
      { senderEmail := .str "a@b.cd", senderName := .str "X", appPassword := .str "pw",
        recipients := .arr [.arr [.str "a@b.cd"]], subject := .str "s",
        template := .str "<p>hello</p>" } = none from rfl] at h
  exact Option.noConfusion h

/-- C8 (amended): with the earlier checks passing, the recipients value
is rejected with the non-empty-array error exactly when it is not an
array or is an empty array; element types are not inspected by this
check. -/
theorem recipients_array_check_amended (b : SendEmailBody)
    (h1 : allFieldsPresent b = true) (h2 : isValidEmailJs b.senderEmail = true) :
    validateSendEmail b = some .invalidRecipients ↔
      (isArr b.recipients = false ∨ arrElems b.recipients = []) := by
  by_cases h3 : recipientsIsNonEmptyArray b = true
  · have hr : isArr b.recipients = true ∧ (arrElems b.recipients).length ≠ 0 := by
      simpa [recipientsIsNonEmptyArray] using h3
    simp only [validateSendEmail, h1, h2, h3]
    constructor
    · intro h
      by_cases h4 : 25 < (arrElems b.recipients).length
      · simp [h4] at h
      · by_cases h5 : 0 < (invalidRecipientEmails b).length <;> simp [h4, h5] at h
    · rintro (h | h)
      · rw [hr.1] at h; exact Bool.noConfusion h
      · exact absurd (List.length_eq_zero.mpr h) hr.2
  · have h3f : recipientsIsNonEmptyArray b = false := by
      revert h3; cases recipientsIsNonEmptyArray b <;> simp
    have hr : isArr b.recipients = false ∨ (arrElems b.recipients).length = 0 := by
      by_cases ha : isArr b.recipients = true
      · right
        have h3c := h3f
        rw [recipientsIsNonEmptyArray, ha, Bool.true_and] at h3c
        simpa using h3c
      · left; revert ha; cases isArr b.recipients <;> simp
    simp only [validateSendEmail, h1, h2, h3f]
    simp only [Bool.not_false, if_true]
    constructor
    · intro _
      rcases hr with h | h
      · exact Or.inl h
      · exact Or.inr (List.length_eq_zero.mp h)
    · intro _; rfl

/-- C8 amended witness: a recipients value that is a bare string is
rejected with the non-empty-array error. -/
theorem recipients_array_check_amended_witness :
    validateSendEmail
      { senderEmail := .str "a@b.cd", senderName := .str "X", appPassword := .str "pw",
        recipients := .str "r@b.cd", subject := .str "s",
        template := .str "<p>hello</p>" } = some .invalidRecipients :=
  (recipients_array_check_amended
    { senderEmail := .str "a@b.cd", senderName := .str "X", appPassword := .str "pw",
      recipients := .str "r@b.cd", subject := .str "s",
      template := .str "<p>hello</p>" } rfl rfl).mpr (Or.inl rfl)

/-- C10: a payload that fails validation is answered with the 400
response and performs no transport action at all — no transporter is
created, no connection is verified, and no mail-send call happens,
whatever the transport would have done. -/
theorem validation_failure_touches_no_transport (b : SendEmailBody) (user : String)
    (t : Transport) (e : ValidationError) (h : validateSendEmail b = some e) :
    sendEmailHandler b user t =
      ({ status := 400, success := false, message := e.message, error := none,
         data := none }, []) := by
  simp [sendEmailHandler, h]

/-- C10 witness: a payload with a missing subject gets the 400 response
and an empty transport-action trace, even against a transport that would
succeed. -/
theorem validation_failure_touches_no_transport_witness :
    sendEmailHandler
      { senderEmail := .str "a@b.cd", senderName := .str "X", appPassword := .str "pw",
        recipients := .arr [.str "r@b.cd"], subject := .undef,
        template := .str "<p>hello</p>" }
      "admin" { verifyOutcome := none, sendOutcome := .inr "msgid" } =
      ({ status := 400, success := false,
         message := ValidationError.missingFields.message, error := none,
         data := none }, []) :=
  validation_failure_touches_no_transport
    { senderEmail := .str "a@b.cd", senderName := .str "X", appPassword := .str "pw",
      recipients := .arr [.str "r@b.cd"], subject := .undef,
      template := .str "<p>hello</p>" }
    "admin" { verifyOutcome := none, sendOutcome := .inr "msgid" }
    .missingFields rfl

end EmailSender
